import Mathlib

/-!
Shallow embedding of the Arduino SAMD `TwoWire` I2C driver
(`src/libraries/Wire/Wire.cpp`) and proofs about its master transaction
engine, its slave event dispatcher, and its bus-recovery policy.

The SERCOM peripheral adapter is modelled as a structure of functions over
an abstract adapter-state type `σ`: queries (`didTimeout`, `isBusOwnerWIRE`,
the slave condition flags) are pure reads of the state, and operations with
bus side effects transform the state.  Every adapter call made by the
driver, together with user-callback invocations, is recorded in an event
trace so that properties such as "no data byte is handed to the adapter"
are statable.

The C++ locals `busOwner` in `requestFrom` and `endTransmission` are
declared without an initializer; this total embedding gives such locals the
definite default value `false` (zero initialization).
-/

namespace WireSpec

/-- Adapter-call and callback events emitted by the driver, in order. -/
inductive Ev : Type where
  | startTx (addr : Nat) (readFlag : Bool)
  | readData
  | prepareAck
  | prepareNack
  | command (code : Nat)
  | sendDataMaster (b : Nat)
  | sendDataSlave (b : Nat)
  | disable
  | initMaster (baud : Nat)
  | enable
  | onReceiveCall (n : Nat)
  | onRequestCall
deriving DecidableEq, Repr

/-- The SERCOM peripheral bus adapter, as the set of operations the driver
calls on it.  `σ` is the adapter's internal state; operations with bus side
effects return a new state, condition queries are pure reads. -/
structure Sercom (σ : Type) where
  startTransmissionWIRE : σ → Nat → Bool → Bool × σ
  readDataWIRE : σ → Nat × σ
  prepareAckBitWIRE : σ → σ
  prepareNackBitWIRE : σ → σ
  prepareCommandBitsWire : σ → Nat → σ
  sendDataMasterWIRE : σ → Nat → Bool × σ
  sendDataSlaveWIRE : σ → Nat → Bool × σ
  didTimeout : σ → Bool
  isBusOwnerWIRE : σ → Bool
  disableWIRE : σ → σ
  initMasterWIRE : σ → Nat → σ
  enableWIRE : σ → σ
  isSlaveWIRE : σ → Bool
  isStopDetectedWIRE : σ → Bool
  isAddressMatch : σ → Bool
  isRestartDetectedWIRE : σ → Bool
  isMasterReadOperationWIRE : σ → Bool
  isDataReadyWIRE : σ → Bool

/-- `WIRE_MASTER_ACT_READ` command code. -/
def wireMasterActRead : Nat := 2

/-- `WIRE_MASTER_ACT_STOP` command code (also the slave completion code `0x03`). -/
def wireMasterActStop : Nat := 3

/-- Modelled from the spec: the fixed-capacity FIFO byte queue (`RingBuffer`),
whose storage implementation is outside `src/`.  The queue is the list of
stored bytes, oldest first; `store_char` silently drops the byte when the
queue is full. -/
def store_char (cap : Nat) (q : List Nat) (b : Nat) : List Nat :=
  if q.length < cap then q ++ [b] else q

/-- Modelled from the spec: `RingBuffer::isFull`. -/
def isFull (cap : Nat) (q : List Nat) : Bool :=
  decide (cap ≤ q.length)

/-- Modelled from the spec: `RingBuffer::read_char` — `-1` when empty, else
remove and return the oldest byte. -/
def read_char (q : List Nat) : Int × List Nat :=
  match q with
  | [] => (-1, [])
  | b :: rest => ((b : Int), rest)

/-- Modelled from the spec: `RingBuffer::peek`. -/
def peekBuf (q : List Nat) : Int :=
  match q with
  | [] => -1
  | b :: _ => (b : Int)

/-- The `TwoWire` object's own state. Callback registration is tracked as a
presence flag; invocations are recorded in the event trace. -/
structure WireState where
  rxBuffer : List Nat
  txBuffer : List Nat
  txAddress : Nat
  transmissionBegun : Bool
  activeBaudrate : Nat
  hasOnReceive : Bool
  hasOnRequest : Bool
deriving DecidableEq, Repr

/-- Adapter-state effect of `TwoWire::setClock`: disable, re-init as master
at `baudrate`, enable. -/
def setClockS {σ : Type} (S : Sercom σ) (s : σ) (baudrate : Nat) : σ :=
  S.enableWIRE (S.initMasterWIRE (S.disableWIRE s) baudrate)

/-- Trace of `TwoWire::setClock`. -/
def setClockTr (baudrate : Nat) : List Ev :=
  [Ev.disable, Ev.initMaster baudrate, Ev.enable]

/-- `TwoWire::setClock(baudrate)`: record `activeBaudrate`, then reset the
peripheral at the new rate. -/
def setClock {σ : Type} (S : Sercom σ) (w : WireState) (s : σ) (baudrate : Nat) :
    WireState × σ × List Ev :=
  ({ w with activeBaudrate := baudrate }, setClockS S s baudrate, setClockTr baudrate)

/-- `TwoWire::beginTransmission(address)`: record the target address, clear
the tx queue, set `transmissionBegun`. -/
def beginTransmission (w : WireState) (address : Nat) : WireState :=
  { w with txAddress := address, txBuffer := [], transmissionBegun := true }

/-- `TwoWire::write(uint8_t)`: refuse (return 0) when no transmission has
begun or the tx queue is full, else append the byte and return 1. -/
def write (cap : Nat) (w : WireState) (ucData : Nat) : Nat × WireState :=
  if !w.transmissionBegun || isFull cap w.txBuffer then
    (0, w)
  else
    (1, { w with txBuffer := store_char cap w.txBuffer ucData })

/-- `TwoWire::write(const uint8_t *, size_t)`: store bytes one at a time via
the single-byte `write`, returning the count stored; stops at the first
failed store. -/
def writeList (cap : Nat) (w : WireState) : List Nat → Nat × WireState
  | [] => (0, w)
  | b :: rest =>
    let r := write cap w b
    if r.1 = 0 then (0, r.2)
    else
      let rs := writeList cap r.2 rest
      (rs.1 + 1, rs.2)

/-- `TwoWire::available()`: count of bytes in the rx queue. -/
def available (w : WireState) : Nat :=
  w.rxBuffer.length

/-- `TwoWire::read()`: pop the oldest rx byte (or `-1`). -/
def readWire (w : WireState) : Int × WireState :=
  let r := read_char w.rxBuffer
  (r.1, { w with rxBuffer := r.2 })

/-- `TwoWire::peek()`. -/
def peekWire (w : WireState) : Int :=
  peekBuf w.rxBuffer

/-- Result of the read loop inside `requestFrom`: loop counter `byteRead`,
adapter state, rx queue, the local `busOwner`, and the events of the loop. -/
structure LoopRes (σ : Type) where
  byteRead : Nat
  s : σ
  rx : List Nat
  busOwner : Bool
  tr : List Ev
deriving DecidableEq

/-- The `for` loop of `TwoWire::requestFrom`:
`for (byteRead = 1; byteRead < quantity && !didTimeout() && (busOwner = isBusOwner()); ++byteRead)
 { prepareAck; command(READ); if (quantity > 1) store(readData()); }`.
`fuel` is `quantity - byteRead`, which bounds the remaining iterations. -/
def requestLoop {σ : Type} (S : Sercom σ) (cap quantity : Nat) :
    Nat → Nat → σ → List Nat → Bool → LoopRes σ
  | 0, byteRead, s, rx, busOwner => ⟨byteRead, s, rx, busOwner, []⟩
  | fuel + 1, byteRead, s, rx, busOwner =>
    if byteRead < quantity then
      if S.didTimeout s then ⟨byteRead, s, rx, busOwner, []⟩
      else if S.isBusOwnerWIRE s then
        let s1 := S.prepareAckBitWIRE s
        let s2 := S.prepareCommandBitsWire s1 wireMasterActRead
        if 1 < quantity then
          let rd := S.readDataWIRE s2
          let r := requestLoop S cap quantity fuel (byteRead + 1) rd.2 (store_char cap rx rd.1) true
          ⟨r.byteRead, r.s, r.rx, r.busOwner,
            Ev.prepareAck :: Ev.command wireMasterActRead :: Ev.readData :: r.tr⟩
        else
          let r := requestLoop S cap quantity fuel (byteRead + 1) s2 rx true
          ⟨r.byteRead, r.s, r.rx, r.busOwner,
            Ev.prepareAck :: Ev.command wireMasterActRead :: r.tr⟩
      else ⟨byteRead, s, rx, false, []⟩
    else ⟨byteRead, s, rx, busOwner, []⟩

/-- Intermediate result of `requestFrom` for `quantity ≠ 0`, up to and
including the stop decision: `s` is the adapter state at which the final
`didTimeout()` check (the timeout-handling branch) is evaluated. -/
structure ReqMid (σ : Type) where
  byteRead : Nat
  rx : List Nat
  s : σ
  busOwner : Bool
  tr : List Ev
deriving DecidableEq

/-- Body of `TwoWire::requestFrom` after the `quantity == 0` early return and
before the final timeout handling.  The uninitialized local `busOwner` takes
the default value `false`. -/
def requestFromMid {σ : Type} (S : Sercom σ) (cap : Nat) (s : σ)
    (address quantity : Nat) (stopBit : Bool) : ReqMid σ :=
  let st := S.startTransmissionWIRE s address true
  let m1 : ReqMid σ :=
    if st.1 then
      let rd := S.readDataWIRE st.2
      let r := requestLoop S cap quantity (quantity - 1) 1 rd.2 (store_char cap [] rd.1) false
      let s3 := S.prepareNackBitWIRE r.s
      let br := if !r.busOwner || S.didTimeout s3 then r.byteRead - 1 else r.byteRead
      ⟨br, r.rx, s3, r.busOwner,
        Ev.startTx address true :: Ev.readData :: r.tr ++ [Ev.prepareNack]⟩
    else ⟨0, [], st.2, false, [Ev.startTx address true]⟩
  if (stopBit && m1.busOwner) || S.didTimeout m1.s then
    ⟨m1.byteRead, m1.rx, S.prepareCommandBitsWire m1.s wireMasterActStop, m1.busOwner,
      m1.tr ++ [Ev.command wireMasterActStop]⟩
  else m1

/-- Result of a master operation: the returned `uint8_t`, the new `TwoWire`
state, the new adapter state, and the event trace. -/
structure MRes (σ : Type) where
  ret : Nat
  w : WireState
  s : σ
  tr : List Ev
deriving DecidableEq

/-- `TwoWire::requestFrom(address, quantity, stopBit)`. -/
def requestFrom {σ : Type} (S : Sercom σ) (cap : Nat) (w : WireState) (s : σ)
    (address quantity : Nat) (stopBit : Bool) : MRes σ :=
  if quantity = 0 then ⟨0, w, s, []⟩
  else
    let m := requestFromMid S cap s address quantity stopBit
    if S.didTimeout m.s then
      let w1 : WireState :=
        { w with rxBuffer := m.rx, transmissionBegun := false,
                 activeBaudrate := w.activeBaudrate }
      ⟨0, w1, setClockS S m.s w.activeBaudrate, m.tr ++ setClockTr w.activeBaudrate⟩
    else
      ⟨m.byteRead % 256, { w with rxBuffer := m.rx }, m.s, m.tr⟩

/-- Result of the send loop inside `endTransmission`. -/
structure TxRes (σ : Type) where
  errCode : Nat
  tx : List Nat
  s : σ
  busOwner : Bool
  tr : List Ev
deriving DecidableEq

/-- The `while` loop of `TwoWire::endTransmission`:
`while (txBuffer.available() && (busOwner = isBusOwner()))
 { if (!sendDataMasterWIRE(txBuffer.read_char())) { errCode = 3; txBuffer.clear(); break; } }`. -/
def endLoop {σ : Type} (S : Sercom σ) : List Nat → σ → Bool → TxRes σ
  | [], s, busOwner => ⟨0, [], s, busOwner, []⟩
  | b :: rest, s, _ =>
    if S.isBusOwnerWIRE s then
      let sd := S.sendDataMasterWIRE s b
      if sd.1 then
        let r := endLoop S rest sd.2 true
        ⟨r.errCode, r.tx, r.s, r.busOwner, Ev.sendDataMaster b :: r.tr⟩
      else ⟨3, [], sd.2, true, [Ev.sendDataMaster b]⟩
    else ⟨0, b :: rest, s, false, []⟩

/-- Intermediate result of `endTransmission` up to and including the stop
decision: `s` is the adapter state at which the final `didTimeout()` check
is evaluated. -/
structure EndMid (σ : Type) where
  errCode : Nat
  tx : List Nat
  s : σ
  tr : List Ev
deriving DecidableEq

/-- Body of `TwoWire::endTransmission` before the final timeout handling.
The uninitialized local `busOwner` takes the default value `false`. -/
def endTransmissionMid {σ : Type} (S : Sercom σ) (s : σ)
    (txAddress : Nat) (tx : List Nat) (stopBit : Bool) : EndMid σ :=
  let st := S.startTransmissionWIRE s txAddress false
  let m1 : TxRes σ :=
    if st.1 then
      let r := endLoop S tx st.2 false
      ⟨r.errCode, r.tx, r.s, r.busOwner, Ev.startTx txAddress false :: r.tr⟩
    else ⟨2, tx, st.2, false, [Ev.startTx txAddress false]⟩
  if (stopBit && m1.busOwner) || !(m1.errCode = 0 : Bool) then
    ⟨m1.errCode, m1.tx, S.prepareCommandBitsWire m1.s wireMasterActStop,
      m1.tr ++ [Ev.command wireMasterActStop]⟩
  else ⟨m1.errCode, m1.tx, m1.s, m1.tr⟩

/-- `TwoWire::endTransmission(stopBit)`. -/
def endTransmission {σ : Type} (S : Sercom σ) (w : WireState) (s : σ)
    (stopBit : Bool) : MRes σ :=
  let m := endTransmissionMid S s w.txAddress w.txBuffer stopBit
  if S.didTimeout m.s then
    let w1 : WireState :=
      { w with txBuffer := m.tx, transmissionBegun := false,
               activeBaudrate := w.activeBaudrate }
    ⟨4, w1, setClockS S m.s w.activeBaudrate, m.tr ++ setClockTr w.activeBaudrate⟩
  else
    ⟨m.errCode, { w with txBuffer := m.tx, transmissionBegun := false }, m.s, m.tr⟩

/-- `TwoWire::onService()`, the slave event dispatcher.  Returns the new
`TwoWire` state, the new adapter state, and the event trace (including
user-callback invocations). -/
def onService {σ : Type} (S : Sercom σ) (cap : Nat) (w : WireState) (s : σ) :
    WireState × σ × List Ev :=
  if S.isSlaveWIRE s then
    if S.isStopDetectedWIRE s ||
        (S.isAddressMatch s && S.isRestartDetectedWIRE s &&
          !S.isMasterReadOperationWIRE s) then
      let s1 := S.prepareAckBitWIRE s
      let s2 := S.prepareCommandBitsWire s1 wireMasterActStop
      let tr0 := [Ev.prepareAck, Ev.command wireMasterActStop]
      let tr1 := if w.hasOnReceive then tr0 ++ [Ev.onReceiveCall (available w)] else tr0
      ({ w with rxBuffer := [] }, s2, tr1)
    else if S.isAddressMatch s then
      let s1 := S.prepareAckBitWIRE s
      let s2 := S.prepareCommandBitsWire s1 wireMasterActStop
      let tr0 := [Ev.prepareAck, Ev.command wireMasterActStop]
      if S.isMasterReadOperationWIRE s then
        let tr1 := if w.hasOnRequest then tr0 ++ [Ev.onRequestCall] else tr0
        ({ w with txBuffer := [], transmissionBegun := true }, s2, tr1)
      else (w, s2, tr0)
    else if S.isDataReadyWIRE s then
      if S.isMasterReadOperationWIRE s then
        let c : Nat := match w.txBuffer with
          | [] => 0xff
          | b :: _ => b
        let tx1 : List Nat := match w.txBuffer with
          | [] => []
          | _ :: rest => rest
        let sd := S.sendDataSlaveWIRE s c
        ({ w with txBuffer := tx1, transmissionBegun := sd.1 }, sd.2,
          [Ev.sendDataSlave c])
      else
        if isFull cap w.rxBuffer then
          let s1 := S.prepareNackBitWIRE s
          let s2 := S.prepareCommandBitsWire s1 wireMasterActStop
          (w, s2, [Ev.prepareNack, Ev.command wireMasterActStop])
        else
          let rd := S.readDataWIRE s
          let s1 := S.prepareAckBitWIRE rd.2
          let s2 := S.prepareCommandBitsWire s1 wireMasterActStop
          ({ w with rxBuffer := store_char cap w.rxBuffer rd.1 }, s2,
            [Ev.readData, Ev.prepareAck, Ev.command wireMasterActStop])
    else (w, s, [])
  else (w, s, [])

/-- The bytes handed to the adapter's `sendDataMasterWIRE`, in trace order. -/
def sentBytes : List Ev → List Nat
  | [] => []
  | Ev.sendDataMaster b :: r => b :: sentBytes r
  | _ :: r => sentBytes r

/-- Replace only the `isBusOwnerWIRE` query of an adapter. -/
def withBusOwner {σ : Type} (S : Sercom σ) (f : σ → Bool) : Sercom σ :=
  { S with isBusOwnerWIRE := f }

/-! ### Concrete adapters used to exhibit witnesses and counterexamples -/

/-- A fully cooperative adapter over a trivial state: address always
acknowledged, every data byte acknowledged, bus ownership retained, no
timeout; in slave mode it reports data-ready for a master read. -/
def probeOk : Sercom Unit where
  startTransmissionWIRE := fun _ _ _ => (true, ())
  readDataWIRE := fun _ => (42, ())
  prepareAckBitWIRE := fun _ => ()
  prepareNackBitWIRE := fun _ => ()
  prepareCommandBitsWire := fun _ _ => ()
  sendDataMasterWIRE := fun _ _ => (true, ())
  sendDataSlaveWIRE := fun _ _ => (true, ())
  didTimeout := fun _ => false
  isBusOwnerWIRE := fun _ => true
  disableWIRE := fun _ => ()
  initMasterWIRE := fun _ _ => ()
  enableWIRE := fun _ => ()
  isSlaveWIRE := fun _ => true
  isStopDetectedWIRE := fun _ => false
  isAddressMatch := fun _ => false
  isRestartDetectedWIRE := fun _ => false
  isMasterReadOperationWIRE := fun _ => true
  isDataReadyWIRE := fun _ => true

/-- Adapter that reports a timeout throughout. -/
def probeTimeout : Sercom Unit :=
  { probeOk with didTimeout := fun _ => true }

/-- Adapter whose address phase always fails. -/
def probeAddrNack : Sercom Unit :=
  { probeOk with startTransmissionWIRE := fun _ _ _ => (false, ()) }

/-- Adapter that never acknowledges a data byte. -/
def probeDataNack : Sercom Unit :=
  { probeOk with sendDataMasterWIRE := fun _ _ => (false, ()) }

/-- Adapter reporting a slave-mode stop condition. -/
def probeStop : Sercom Unit :=
  { probeOk with isStopDetectedWIRE := fun _ => true }

/-- An idle controller state. -/
def probeW0 : WireState :=
  ⟨[], [], 0, false, 100000, false, false⟩

/-! ### Helper lemmas -/

theorem sentBytes_append (a b : List Ev) :
    sentBytes (a ++ b) = sentBytes a ++ sentBytes b := by
  induction a with
  | nil => rfl
  | cons e r ih =>
    cases e <;> simp [sentBytes, ih]

theorem endLoop_err3_tx {σ : Type} (S : Sercom σ) :
    ∀ (tx : List Nat) (s : σ) (bo : Bool),
      (endLoop S tx s bo).errCode = 3 → (endLoop S tx s bo).tx = [] := by
  intro tx
  induction tx with
  | nil => intro s bo h; simp [endLoop] at h
  | cons b rest ih =>
    intro s bo h
    simp only [endLoop] at h ⊢
    by_cases hown : S.isBusOwnerWIRE s
    · simp only [hown, if_true] at h ⊢
      by_cases hsd : (S.sendDataMasterWIRE s b).1
      · simp only [hsd, if_true] at h ⊢
        exact ih _ _ h
      · simp [hsd]
    · simp [hown] at h

/-- The adapter state reached after handing a list of bytes to
`sendDataMasterWIRE` in order. -/
def sendFold {σ : Type} (S : Sercom σ) : List Nat → σ → σ
  | [], s => s
  | b :: rest, s => sendFold S rest (S.sendDataMasterWIRE s b).2

/-- Whether the adapter acknowledges every byte of a list when they are
handed to `sendDataMasterWIRE` in order from the given state. -/
def acksUpTo {σ : Type} (S : Sercom σ) : List Nat → σ → Bool
  | [], _ => true
  | b :: rest, s =>
    (S.sendDataMasterWIRE s b).1 && acksUpTo S rest (S.sendDataMasterWIRE s b).2

theorem endLoop_nack_exact {σ : Type} (S : Sercom σ) :
    ∀ (tx : List Nat) (s : σ) (bo : Bool),
      (endLoop S tx s bo).errCode = 3 →
      ∃ pre c post, tx = pre ++ c :: post ∧
        acksUpTo S pre s = true ∧
        (S.sendDataMasterWIRE (sendFold S pre s) c).1 = false ∧
        sentBytes (endLoop S tx s bo).tr = pre ++ [c] := by
  intro tx
  induction tx with
  | nil => intro s bo h; simp [endLoop] at h
  | cons b rest ih =>
    intro s bo h
    simp only [endLoop] at h ⊢
    by_cases hown : S.isBusOwnerWIRE s
    · simp only [hown, if_true] at h ⊢
      by_cases hsd : (S.sendDataMasterWIRE s b).1
      · simp only [hsd, if_true] at h ⊢
        obtain ⟨pre, c, post, h1, h2, h3, h4⟩ := ih (S.sendDataMasterWIRE s b).2 true h
        exact ⟨b :: pre, c, post, by simp [h1],
          by simp [acksUpTo, hsd, h2], by simpa [sendFold] using h3,
          by simp [sentBytes, h4]⟩
      · refine ⟨[], b, rest, by simp, rfl, ?_, ?_⟩
        · simpa [sendFold] using hsd
        · simp [hsd, sentBytes]
    · simp [hown] at h

theorem endLoop_sent_all {σ : Type} (S : Sercom σ)
    (hsd : ∀ t b, (S.sendDataMasterWIRE t b).1 = true)
    (hown : ∀ t, S.isBusOwnerWIRE t = true) :
    ∀ (tx : List Nat) (s : σ) (bo : Bool),
      sentBytes (endLoop S tx s bo).tr = tx ∧ (endLoop S tx s bo).errCode = 0 := by
  intro tx
  induction tx with
  | nil => intro s bo; simp [endLoop, sentBytes]
  | cons b rest ih =>
    intro s bo
    simp only [endLoop, hown, hsd, if_true]
    obtain ⟨h1, h2⟩ := ih (S.sendDataMasterWIRE s b).2 true
    simp [sentBytes, h1, h2]

theorem endTransmissionMid_start_fail {σ : Type} (S : Sercom σ) (s : σ)
    (a : Nat) (tx : List Nat) (stopBit : Bool)
    (hstart : (S.startTransmissionWIRE s a false).1 = false) :
    endTransmissionMid S s a tx stopBit =
      ⟨2, tx, S.prepareCommandBitsWire (S.startTransmissionWIRE s a false).2 wireMasterActStop,
        [Ev.startTx a false, Ev.command wireMasterActStop]⟩ := by
  simp [endTransmissionMid, hstart]

theorem endTransmissionMid_err3 {σ : Type} (S : Sercom σ) (s : σ)
    (a : Nat) (tx : List Nat) (stopBit : Bool)
    (hstart : (S.startTransmissionWIRE s a false).1 = true)
    (herr : (endLoop S tx (S.startTransmissionWIRE s a false).2 false).errCode = 3) :
    endTransmissionMid S s a tx stopBit =
      ⟨3, (endLoop S tx (S.startTransmissionWIRE s a false).2 false).tx,
        S.prepareCommandBitsWire
          (endLoop S tx (S.startTransmissionWIRE s a false).2 false).s wireMasterActStop,
        Ev.startTx a false ::
          (endLoop S tx (S.startTransmissionWIRE s a false).2 false).tr ++
            [Ev.command wireMasterActStop]⟩ := by
  simp [endTransmissionMid, hstart, herr]

/-! ### Claim theorems -/

/-- C7: `requestFrom(address, 0, stopBit)` returns 0 immediately, performs no
adapter operation (empty trace), and leaves both the controller state and the
adapter state untouched. -/
theorem C7_requestFrom_zero {σ : Type} (S : Sercom σ) (cap : Nat)
    (w : WireState) (s : σ) (address : Nat) (stopBit : Bool) :
    requestFrom S cap w s address 0 stopBit = ⟨0, w, s, []⟩ := by
  simp [requestFrom]

/-- C2: when `startTransmissionWIRE` for the stored target address reports an
address NACK and no timeout is reported at the final check, `endTransmission`
returns exactly 2 and hands no data byte to `sendDataMasterWIRE`. -/
theorem C2_endTransmission_addrNack {σ : Type} (S : Sercom σ)
    (w : WireState) (s : σ) (stopBit : Bool)
    (hstart : (S.startTransmissionWIRE s w.txAddress false).1 = false)
    (hnt : S.didTimeout (endTransmissionMid S s w.txAddress w.txBuffer stopBit).s = false) :
    (endTransmission S w s stopBit).ret = 2 ∧
      sentBytes (endTransmission S w s stopBit).tr = [] := by
  have hm := endTransmissionMid_start_fail S s w.txAddress w.txBuffer stopBit hstart
  rw [hm] at hnt
  simp [endTransmission, hm, hnt, sentBytes]

theorem C2_witness :
    ((probeAddrNack.startTransmissionWIRE () 80 false).1 = false ∧
      probeAddrNack.didTimeout
        (endTransmissionMid probeAddrNack () 80 [1, 2] true).s = false) ∧
    (endTransmission probeAddrNack ⟨[], [1, 2], 80, true, 100000, false, false⟩ () true).ret = 2 ∧
      sentBytes (endTransmission probeAddrNack
        ⟨[], [1, 2], 80, true, 100000, false, false⟩ () true).tr = [] :=
  ⟨⟨by decide, by decide⟩,
    C2_endTransmission_addrNack probeAddrNack
      ⟨[], [1, 2], 80, true, 100000, false, false⟩ () true (by decide) (by decide)⟩

/-- C3: when the adapter reports a timeout at the final check of
`endTransmission`, the call re-applies the last configured clock rate via
`setClock`, sets `transmissionBegun` to false, and returns 4, regardless of
any error recorded earlier in the same call. -/
theorem C3_endTransmission_timeout {σ : Type} (S : Sercom σ)
    (w : WireState) (s : σ) (stopBit : Bool)
    (hto : S.didTimeout (endTransmissionMid S s w.txAddress w.txBuffer stopBit).s = true) :
    (endTransmission S w s stopBit).ret = 4 ∧
      (endTransmission S w s stopBit).w.transmissionBegun = false ∧
      (endTransmission S w s stopBit).s =
        setClockS S (endTransmissionMid S s w.txAddress w.txBuffer stopBit).s w.activeBaudrate ∧
      (endTransmission S w s stopBit).tr =
        (endTransmissionMid S s w.txAddress w.txBuffer stopBit).tr ++
          setClockTr w.activeBaudrate ∧
      (endTransmission S w s stopBit).w.activeBaudrate = w.activeBaudrate := by
  simp [endTransmission, hto]

theorem C3_witness :
    probeTimeout.didTimeout
      (endTransmissionMid probeTimeout () 80 [1, 2] true).s = true ∧
    (endTransmission probeTimeout ⟨[], [1, 2], 80, true, 100000, false, false⟩ () true).ret = 4 ∧
      (endTransmission probeTimeout ⟨[], [1, 2], 80, true, 100000, false, false⟩ () true).w.transmissionBegun = false :=
  ⟨by decide,
    (C3_endTransmission_timeout probeTimeout
      ⟨[], [1, 2], 80, true, 100000, false, false⟩ () true (by decide)).1,
    (C3_endTransmission_timeout probeTimeout
      ⟨[], [1, 2], 80, true, 100000, false, false⟩ () true (by decide)).2.1⟩

/-- C4: when the address phase succeeds, some data byte is NACKed by
`sendDataMasterWIRE` (the send loop records error 3), and no timeout is
reported, `endTransmission` returns 3, the tx queue ends empty, a stop
condition is issued, and the bytes handed to `sendDataMasterWIRE` over the
whole call are exactly an acknowledged prefix of the queued bytes followed
by the single NACKed byte — the NACKed byte is the last one handed, and no
further byte reaches the adapter. -/
theorem C4_endTransmission_dataNack {σ : Type} (S : Sercom σ)
    (w : WireState) (s : σ) (stopBit : Bool)
    (hstart : (S.startTransmissionWIRE s w.txAddress false).1 = true)
    (herr : (endLoop S w.txBuffer (S.startTransmissionWIRE s w.txAddress false).2 false).errCode = 3)
    (hnt : S.didTimeout (endTransmissionMid S s w.txAddress w.txBuffer stopBit).s = false) :
    (endTransmission S w s stopBit).ret = 3 ∧
      (endTransmission S w s stopBit).w.txBuffer = [] ∧
      Ev.command wireMasterActStop ∈ (endTransmission S w s stopBit).tr ∧
      ∃ pre c post, w.txBuffer = pre ++ c :: post ∧
        acksUpTo S pre (S.startTransmissionWIRE s w.txAddress false).2 = true ∧
        (S.sendDataMasterWIRE
          (sendFold S pre (S.startTransmissionWIRE s w.txAddress false).2) c).1 = false ∧
        sentBytes (endTransmission S w s stopBit).tr = pre ++ [c] := by
  have hm := endTransmissionMid_err3 S s w.txAddress w.txBuffer stopBit hstart herr
  rw [hm] at hnt
  have htx := endLoop_err3_tx S w.txBuffer (S.startTransmissionWIRE s w.txAddress false).2 false herr
  obtain ⟨pre, c, post, h1, h2, h3, h4⟩ :=
    endLoop_nack_exact S w.txBuffer (S.startTransmissionWIRE s w.txAddress false).2 false herr
  refine ⟨?_, ?_, ?_, ⟨pre, c, post, h1, h2, h3, ?_⟩⟩ <;>
    simp [endTransmission, hm, hnt, htx, sentBytes_append, sentBytes, h4]

theorem C4_witness :
    ((probeDataNack.startTransmissionWIRE () 80 false).1 = true ∧
      (endLoop probeDataNack [1, 2]
        (probeDataNack.startTransmissionWIRE () 80 false).2 false).errCode = 3 ∧
      probeDataNack.didTimeout
        (endTransmissionMid probeDataNack () 80 [1, 2] true).s = false) ∧
    (endTransmission probeDataNack ⟨[], [1, 2], 80, true, 100000, false, false⟩ () true).ret = 3 ∧
      (endTransmission probeDataNack ⟨[], [1, 2], 80, true, 100000, false, false⟩ () true).w.txBuffer = [] :=
  ⟨⟨by decide, by decide, by decide⟩,
    (C4_endTransmission_dataNack probeDataNack
      ⟨[], [1, 2], 80, true, 100000, false, false⟩ () true (by decide) (by decide) (by decide)).1,
    (C4_endTransmission_dataNack probeDataNack
      ⟨[], [1, 2], 80, true, 100000, false, false⟩ () true (by decide) (by decide) (by decide)).2.1⟩

/-- C1 counterexample: with an adapter that acknowledges the address, delivers
byte 42, and then reports a timeout, `requestFrom(80, 2, true)` takes the
timeout branch (the final `didTimeout` check is true) and returns 0, yet the
rx queue still holds the byte stored before the timeout — it is not left
empty, contradicting the claim. -/
theorem C1_counterexample :
    probeTimeout.didTimeout (requestFromMid probeTimeout 4 () 80 2 true).s = true ∧
      (requestFrom probeTimeout 4 probeW0 () 80 2 true).ret = 0 ∧
      (requestFrom probeTimeout 4 probeW0 () 80 2 true).w.rxBuffer = [42] ∧
      (requestFrom probeTimeout 4 probeW0 () 80 2 true).w.rxBuffer ≠ [] := by
  refine ⟨by decide, by decide, by decide, by decide⟩

/-- C1 (amended): for `quantity ≥ 1`, when the adapter reports a timeout at
the final check of `requestFrom`, the call resets the bus via `setClock` with
the last configured clock rate, sets `transmissionBegun` to false, and
returns 0; the rx queue is left exactly as the transfer filled it (bytes
stored before the timeout are retained, not discarded). -/
theorem C1_requestFrom_timeout {σ : Type} (S : Sercom σ) (cap : Nat)
    (w : WireState) (s : σ) (address quantity : Nat) (stopBit : Bool)
    (hq : quantity ≠ 0)
    (hto : S.didTimeout (requestFromMid S cap s address quantity stopBit).s = true) :
    (requestFrom S cap w s address quantity stopBit).ret = 0 ∧
      (requestFrom S cap w s address quantity stopBit).w.transmissionBegun = false ∧
      (requestFrom S cap w s address quantity stopBit).w.activeBaudrate = w.activeBaudrate ∧
      (requestFrom S cap w s address quantity stopBit).s =
        setClockS S (requestFromMid S cap s address quantity stopBit).s w.activeBaudrate ∧
      (requestFrom S cap w s address quantity stopBit).tr =
        (requestFromMid S cap s address quantity stopBit).tr ++ setClockTr w.activeBaudrate ∧
      (requestFrom S cap w s address quantity stopBit).w.rxBuffer =
        (requestFromMid S cap s address quantity stopBit).rx := by
  simp [requestFrom, hq, hto]

theorem C1_witness :
    ((2 : Nat) ≠ 0 ∧
      probeTimeout.didTimeout (requestFromMid probeTimeout 4 () 80 2 true).s = true) ∧
    (requestFrom probeTimeout 4 probeW0 () 80 2 true).ret = 0 ∧
      (requestFrom probeTimeout 4 probeW0 () 80 2 true).w.transmissionBegun = false :=
  ⟨⟨by decide, by decide⟩,
    (C1_requestFrom_timeout probeTimeout 4 probeW0 () 80 2 true (by decide) (by decide)).1,
    (C1_requestFrom_timeout probeTimeout 4 probeW0 () 80 2 true (by decide) (by decide)).2.1⟩

theorem write_eq (cap : Nat) (w : WireState) (b : Nat) :
    write cap w b =
      if !w.transmissionBegun || isFull cap w.txBuffer then (0, w)
      else (1, { w with txBuffer := w.txBuffer ++ [b] }) := by
  cases h : (!w.transmissionBegun || isFull cap w.txBuffer) with
  | true => simp [write, h]
  | false =>
    obtain ⟨h1, h2⟩ := Bool.or_eq_false_iff.mp h
    have hlt : w.txBuffer.length < cap := by
      simp [isFull] at h2
      omega
    simp [write, h1, h2, store_char, hlt]

theorem writeList_spec (cap : Nat) :
    ∀ (bs : List Nat) (w : WireState),
      (writeList cap w bs).2.txBuffer = w.txBuffer ++ bs.take (writeList cap w bs).1 ∧
      (writeList cap w bs).1 ≤ bs.length ∧
      ((writeList cap w bs).1 = bs.length ∨
        (write cap (writeList cap w bs).2 (bs.getD (writeList cap w bs).1 0)).1 = 0) ∧
      (writeList cap w bs).2.txBuffer.length ≤ max cap w.txBuffer.length := by
  intro bs
  induction bs with
  | nil => intro w; simp [writeList]
  | cons b rest ih =>
    intro w
    cases h : (!w.transmissionBegun || isFull cap w.txBuffer) with
    | true =>
      have hw : write cap w b = (0, w) := by rw [write_eq]; simp [h]
      have hwl : writeList cap w (b :: rest) = (0, w) := by
        simp [writeList, hw]
      rw [hwl]
      refine ⟨by simp, by simp, Or.inr ?_, by simp⟩
      simp [hw]
    | false =>
      have hlt : w.txBuffer.length < cap := by
        obtain ⟨h1, h2⟩ := Bool.or_eq_false_iff.mp h
        simp [isFull] at h2
        omega
      have hw : write cap w b = (1, { w with txBuffer := w.txBuffer ++ [b] }) := by
        rw [write_eq]; simp [h]
      have hwl : writeList cap w (b :: rest) =
          ((writeList cap { w with txBuffer := w.txBuffer ++ [b] } rest).1 + 1,
            (writeList cap { w with txBuffer := w.txBuffer ++ [b] } rest).2) := by
        simp [writeList, hw]
      rw [hwl]
      obtain ⟨ih1, ih2, ih3, ih4⟩ := ih { w with txBuffer := w.txBuffer ++ [b] }
      refine ⟨?_, by simpa using Nat.add_le_add_right ih2 1, ?_, ?_⟩
      · rw [ih1]
        simp
      · rcases ih3 with h3 | h3
        · exact Or.inl (by simp [h3])
        · exact Or.inr (by simpa using h3)
      · calc (writeList cap { w with txBuffer := w.txBuffer ++ [b] } rest).2.txBuffer.length
            ≤ max cap (w.txBuffer.length + 1) := by simpa using ih4
          _ = cap := Nat.max_eq_left (by omega)
          _ ≤ max cap w.txBuffer.length := Nat.le_max_left _ _

/-- C6: the single-byte `write` returns 0 and leaves the controller untouched
whenever `transmissionBegun` is false or the tx queue is full, and otherwise
appends the byte and returns 1; the bulk `write` returns the count of bytes
actually stored (a prefix of its input), stops at the first failed store, and
never grows the tx queue beyond capacity. -/
theorem C6_write_contract (cap : Nat) (w : WireState) (b : Nat) (bs : List Nat) :
    (write cap w b =
      if !w.transmissionBegun || isFull cap w.txBuffer then (0, w)
      else (1, { w with txBuffer := w.txBuffer ++ [b] })) ∧
    (writeList cap w bs).2.txBuffer = w.txBuffer ++ bs.take (writeList cap w bs).1 ∧
    (writeList cap w bs).1 ≤ bs.length ∧
    ((writeList cap w bs).1 = bs.length ∨
      (write cap (writeList cap w bs).2 (bs.getD (writeList cap w bs).1 0)).1 = 0) ∧
    (writeList cap w bs).2.txBuffer.length ≤ max cap w.txBuffer.length :=
  ⟨write_eq cap w b, writeList_spec cap bs w⟩

theorem writeList_stores (cap : Nat) :
    ∀ (bs : List Nat) (w : WireState),
      w.transmissionBegun = true → w.txBuffer.length + bs.length ≤ cap →
      writeList cap w bs = (bs.length, { w with txBuffer := w.txBuffer ++ bs }) := by
  intro bs
  induction bs with
  | nil => intro w _ _; simp [writeList]
  | cons b rest ih =>
    intro w hb hlen
    have hfull : isFull cap w.txBuffer = false := by
      simp only [List.length_cons] at hlen
      simp [isFull]
      omega
    have hw : write cap w b = (1, { w with txBuffer := w.txBuffer ++ [b] }) := by
      rw [write_eq]
      simp [hb, hfull]
    simp only [writeList, hw]
    rw [ih { w with txBuffer := w.txBuffer ++ [b] } (by simp [hb])
      (by simp only [List.length_append, List.length_cons, List.length_nil] at hlen ⊢; omega)]
    simp [List.append_assoc]

theorem endTransmission_sent_all {σ : Type} (S : Sercom σ)
    (w : WireState) (s : σ) (stopBit : Bool)
    (hstart : (S.startTransmissionWIRE s w.txAddress false).1 = true)
    (hsd : ∀ t b, (S.sendDataMasterWIRE t b).1 = true)
    (hown : ∀ t, S.isBusOwnerWIRE t = true) :
    sentBytes (endTransmission S w s stopBit).tr = w.txBuffer := by
  obtain ⟨h1, h2⟩ :=
    endLoop_sent_all S hsd hown w.txBuffer (S.startTransmissionWIRE s w.txAddress false).2 false
  simp only [endTransmission, endTransmissionMid, hstart, if_true]
  split <;> split <;>
    simp_all [sentBytes_append, sentBytes, setClockTr]

/-- C5: after `beginTransmission(a)` followed by writes of `bs` that all fit
the queue, an `endTransmission` in which the adapter acknowledges the address
and every data byte and never loses bus ownership hands the adapter exactly
the bytes `bs`, in the order written. -/
theorem C5_write_order {σ : Type} (S : Sercom σ) (cap : Nat)
    (w : WireState) (s : σ) (a : Nat) (bs : List Nat) (stopBit : Bool)
    (hlen : bs.length ≤ cap)
    (hstart : (S.startTransmissionWIRE s a false).1 = true)
    (hsd : ∀ t b, (S.sendDataMasterWIRE t b).1 = true)
    (hown : ∀ t, S.isBusOwnerWIRE t = true) :
    (writeList cap (beginTransmission w a) bs).1 = bs.length ∧
      sentBytes (endTransmission S
        (writeList cap (beginTransmission w a) bs).2 s stopBit).tr = bs := by
  have hw := writeList_stores cap bs (beginTransmission w a)
    (by simp [beginTransmission]) (by simp [beginTransmission]; omega)
  rw [hw]
  refine ⟨rfl, ?_⟩
  have := endTransmission_sent_all S
    { beginTransmission w a with txBuffer := [] ++ bs } s stopBit
    (by simpa [beginTransmission] using hstart) hsd hown
  simpa [beginTransmission] using this

theorem C5_witness :
    (([1, 2] : List Nat).length ≤ 4 ∧
      (probeOk.startTransmissionWIRE () 80 false).1 = true ∧
      (∀ (t : Unit) (b : Nat), (probeOk.sendDataMasterWIRE t b).1 = true) ∧
      (∀ t : Unit, probeOk.isBusOwnerWIRE t = true)) ∧
    (writeList 4 (beginTransmission probeW0 80) [1, 2]).1 = 2 ∧
      sentBytes (endTransmission probeOk
        (writeList 4 (beginTransmission probeW0 80) [1, 2]).2 () true).tr = [1, 2] :=
  ⟨⟨by decide, by decide, fun _ _ => rfl, fun _ => rfl⟩,
    C5_write_order probeOk 4 probeW0 () 80 [1, 2] true
      (by decide) (by decide) (fun _ _ => rfl) (fun _ => rfl)⟩

/-- C8: when the adapter reports slave role and a stop condition, the slave
dispatcher invokes the registered receive callback (if any) exactly once with
the `available()` count at that moment, and the rx queue is empty when the
dispatcher returns. -/
theorem C8_onService_stop {σ : Type} (S : Sercom σ) (cap : Nat)
    (w : WireState) (s : σ)
    (hslave : S.isSlaveWIRE s = true)
    (hstop : S.isStopDetectedWIRE s = true) :
    (onService S cap w s).1.rxBuffer = [] ∧
      (w.hasOnReceive = true →
        (onService S cap w s).2.2 =
          [Ev.prepareAck, Ev.command wireMasterActStop, Ev.onReceiveCall (available w)]) ∧
      (w.hasOnReceive = false →
        (onService S cap w s).2.2 = [Ev.prepareAck, Ev.command wireMasterActStop]) := by
  refine ⟨by simp [onService, hslave, hstop], ?_, ?_⟩ <;>
    intro h <;> simp [onService, hslave, hstop, available, h]

theorem C8_witness :
    (probeStop.isSlaveWIRE () = true ∧ probeStop.isStopDetectedWIRE () = true) ∧
    (onService probeStop 4 ⟨[5, 6], [], 0, false, 100000, true, false⟩ ()).1.rxBuffer = [] ∧
      (onService probeStop 4 ⟨[5, 6], [], 0, false, 100000, true, false⟩ ()).2.2 =
        [Ev.prepareAck, Ev.command wireMasterActStop, Ev.onReceiveCall 2] :=
  ⟨⟨by decide, by decide⟩,
    (C8_onService_stop probeStop 4 ⟨[5, 6], [], 0, false, 100000, true, false⟩ ()
      (by decide) (by decide)).1,
    (C8_onService_stop probeStop 4 ⟨[5, 6], [], 0, false, 100000, true, false⟩ ()
      (by decide) (by decide)).2.1 (by decide)⟩

/-- C9: in slave role with no stop/restart-to-write, no address match, data
ready, and a master read operation, the dispatcher hands `sendDataSlaveWIRE`
the byte `0xFF` when the tx queue is empty and otherwise the oldest queued
byte (removing it), and `transmissionBegun` becomes the Boolean the adapter
returned. -/
theorem C9_onService_underrun {σ : Type} (S : Sercom σ) (cap : Nat)
    (w : WireState) (s : σ)
    (hslave : S.isSlaveWIRE s = true)
    (hstop : S.isStopDetectedWIRE s = false)
    (hmatch : S.isAddressMatch s = false)
    (hdata : S.isDataReadyWIRE s = true)
    (hread : S.isMasterReadOperationWIRE s = true) :
    (w.txBuffer = [] →
      (onService S cap w s).2.2 = [Ev.sendDataSlave 0xff] ∧
        (onService S cap w s).1.transmissionBegun = (S.sendDataSlaveWIRE s 0xff).1) ∧
    (∀ b rest, w.txBuffer = b :: rest →
      (onService S cap w s).2.2 = [Ev.sendDataSlave b] ∧
        (onService S cap w s).1.transmissionBegun = (S.sendDataSlaveWIRE s b).1 ∧
        (onService S cap w s).1.txBuffer = rest) := by
  constructor
  · intro htx
    simp [onService, hslave, hstop, hmatch, hdata, hread, htx]
  · intro b rest htx
    simp [onService, hslave, hstop, hmatch, hdata, hread, htx]

theorem C9_witness :
    (probeOk.isSlaveWIRE () = true ∧ probeOk.isStopDetectedWIRE () = false ∧
      probeOk.isAddressMatch () = false ∧ probeOk.isDataReadyWIRE () = true ∧
      probeOk.isMasterReadOperationWIRE () = true ∧ probeW0.txBuffer = []) ∧
    (onService probeOk 4 probeW0 ()).2.2 = [Ev.sendDataSlave 0xff] ∧
      (onService probeOk 4 probeW0 ()).1.transmissionBegun =
        (probeOk.sendDataSlaveWIRE () 0xff).1 :=
  ⟨⟨by decide, by decide, by decide, by decide, by decide, by decide⟩,
    (C9_onService_underrun probeOk 4 probeW0 ()
      (by decide) (by decide) (by decide) (by decide) (by decide)).1 (by decide)⟩

/-- C10: with the uninitialized C++ local `busOwner` given the definite
default value `false`, the paths that read it before any loop iteration
assigned it are insensitive to the adapter's `isBusOwnerWIRE` query: for a
non-timing-out adapter, `requestFrom` with `quantity = 1` produces the same
result under any two ownership oracles, and on a successful address phase it
returns 0 (the garbage-byte decrement fires off the default) and issues no
stop command even when `stopBit` is requested; with a failed address phase it
likewise issues no stop; `endTransmission` with an empty tx queue, or with a
failed address phase, is equally insensitive to the ownership oracle, and in
the empty-queue successful-address case issues no stop command even when
`stopBit` is requested.  The spec's ownership-based stop/discard conditions
are therefore not met by these paths. -/
theorem C10_busOwner_default {σ : Type} (S : Sercom σ) (f g : σ → Bool)
    (cap : Nat) (w : WireState) (s : σ) (address : Nat) (stopBit : Bool)
    (hnt : ∀ t, S.didTimeout t = false) :
    (requestFrom (withBusOwner S f) cap w s address 1 stopBit =
      requestFrom (withBusOwner S g) cap w s address 1 stopBit) ∧
    ((S.startTransmissionWIRE s address true).1 = true →
      (requestFrom (withBusOwner S f) cap w s address 1 stopBit).ret = 0 ∧
        Ev.command wireMasterActStop ∉
          (requestFrom (withBusOwner S f) cap w s address 1 stopBit).tr) ∧
    ((S.startTransmissionWIRE s address true).1 = false →
      Ev.command wireMasterActStop ∉
        (requestFrom (withBusOwner S f) cap w s address 1 stopBit).tr) ∧
    (w.txBuffer = [] →
      endTransmission (withBusOwner S f) w s stopBit =
        endTransmission (withBusOwner S g) w s stopBit ∧
      ((S.startTransmissionWIRE s w.txAddress false).1 = true →
        Ev.command wireMasterActStop ∉
          (endTransmission (withBusOwner S f) w s stopBit).tr)) ∧
    ((S.startTransmissionWIRE s w.txAddress false).1 = false →
      endTransmission (withBusOwner S f) w s stopBit =
        endTransmission (withBusOwner S g) w s stopBit) := by
  refine ⟨?_, ?_, ?_, ?_, ?_⟩
  · cases hst : (S.startTransmissionWIRE s address true).1 <;>
      simp [requestFrom, requestFromMid, requestLoop, withBusOwner, hnt, hst]
  · intro hst
    simp [requestFrom, requestFromMid, requestLoop, withBusOwner, hnt, hst, sentBytes,
      wireMasterActStop]
  · intro hst
    simp [requestFrom, requestFromMid, requestLoop, withBusOwner, hnt, hst,
      wireMasterActStop]
  · intro htx
    cases hst : (S.startTransmissionWIRE s w.txAddress false).1 <;>
      constructor <;>
      simp [endTransmission, endTransmissionMid, endLoop, withBusOwner, hnt, hst, htx,
        wireMasterActStop]
  · intro hst
    simp [endTransmission, endTransmissionMid, endLoop, withBusOwner, hnt, hst,
      wireMasterActStop]

theorem C10_witness :
    (∀ t : Unit, probeOk.didTimeout t = false) ∧
    (requestFrom (withBusOwner probeOk (fun _ => true)) 4 probeW0 () 80 1 true =
      requestFrom (withBusOwner probeOk (fun _ => false)) 4 probeW0 () 80 1 true) ∧
    (requestFrom (withBusOwner probeOk (fun _ => true)) 4 probeW0 () 80 1 true).ret = 0 :=
  ⟨fun _ => rfl,
    (C10_busOwner_default probeOk (fun _ => true) (fun _ => false) 4 probeW0 () 80 true
      (fun _ => rfl)).1,
    ((C10_busOwner_default probeOk (fun _ => true) (fun _ => false) 4 probeW0 () 80 true
      (fun _ => rfl)).2.1 (by decide)).1⟩

end WireSpec
